import Mathlib

/-
Verification of the comm subsystem in
`spyder/plugins/ipythonconsole/comms/kernelcomm.py` (class `KernelComm`).

The Python class is shallowly embedded: its mutable attributes become the
fields of an explicit state record, Qt signal emissions become event
counters, the `contextmanager`-based channel router becomes a higher-order
function over an explicit body, and the Qt event loop used by `_wait`
becomes a small-step interpreter over a list of wakeup events.  The
generic dispatch machinery inherited from the external `CommBase` class
(out of scope per the design document) is abstracted as a `body` argument
that can return a value or fail.
-/

set_option autoImplicit false

namespace KernelComm

/-- An outgoing lane a Comm's `_send_channel` can reference: the default
`shell_channel` of the kernel client, or the negotiated priority
`comm_channel`. -/
inductive Lane where
  | shell
  | priority
deriving DecidableEq

/-- A constructed comm channel, as built in `_set_comm_port` from a freshly
created connected socket: it records the port it was bound to, the session
identity (`client.session.bsession`) used for the socket, and a
construction index so that distinct constructions are distinguishable. -/
structure Chan where
  port : Nat
  identity : Nat
  ctor_index : Nat
deriving DecidableEq

/-- The mutable state of a `KernelComm` object together with its
`kernel_client`.  `remote_comm_port` is the comm's own attribute; the
`comm_port` / `comm_channel` / `ssh_parameters` fields live on the kernel
client (`hasattr` is modelled by `Option`).  `comms` is the `_comms` dict
restricted to what the claims observe: each comm id mapped to its comm's
current `_send_channel`.  The counter fields count, respectively, emissions
of `_sig_comm_port_changed`, remote `_send_comm_config` requests, and
`logger` entries produced. -/
structure KCState where
  remote_comm_port : Option Nat
  comm_port : Option Nat
  comm_channel : Option Chan
  ssh_parameters : Option Unit
  session : Nat
  next_channel_id : Nat
  comms : List (Nat × Lane)
  port_changed_events : Nat
  comm_config_requests : Nat
  log_entries : Nat
  alive : Bool
deriving DecidableEq

/-- `comm_channel_connected`: the comm channel is connected iff
`kernel_client.comm_channel is not None`. -/
def comm_channel_connected (s : KCState) : Bool :=
  s.comm_channel.isSome

/-- Result of `_set_comm_port`: normal return, or the ssh tunnel call
raising (its exception propagates out of the method). -/
inductive PortResult where
  | ok
  | tunnelError
deriving DecidableEq

/-- Environment for one `_set_comm_port` call: the ephemeral local port
returned by `zmqtunnel.select_random_ports(1)[0]` and whether the
`ssh_tunnel` call succeeds. -/
structure TunnelEnv where
  local_port : Nat
  tunnel_ok : Bool
deriving DecidableEq

/-- Lines 75-83 of `_set_comm_port`: if it is not the case that the client
already has a `comm_port` attribute equal to the resolved port, record the
port, build a new connected socket with the session identity, replace
`client.comm_channel` with a channel over it, and emit
`_sig_comm_port_changed`. -/
def install_channel (s : KCState) (port : Nat) : KCState :=
  if s.comm_port = some port then s
  else
    { s with
      comm_port := some port,
      comm_channel := some ⟨port, s.session, s.next_channel_id⟩,
      next_channel_id := s.next_channel_id + 1,
      port_changed_events := s.port_changed_events + 1 }

/-- `_set_comm_port(port)`.  Returns early when the port is absent or equal
to `remote_comm_port`; otherwise records the advertised port, tunnels it
when the client has `ssh_parameters` (resolving to the ephemeral local
port, or propagating the tunnel failure), and finally installs the channel
when the resolved port is not already the client's bound `comm_port`. -/
def set_comm_port (env : TunnelEnv) (s : KCState) (advertised : Option Nat) :
    KCState × PortResult :=
  match advertised with
  | none => (s, .ok)
  | some port =>
    if some port = s.remote_comm_port then (s, .ok)
    else
      let s1 := { s with remote_comm_port := some port }
      match s1.ssh_parameters with
      | some _ =>
        if env.tunnel_ok then (install_channel s1 env.local_port, .ok)
        else (s1, .tunnelError)
      | none => (install_channel s1 port, .ok)

/-- Python exception kinds the embedded code distinguishes:
`RuntimeError` (includes the "Kernel is dead" error), `CommError` (a
`RuntimeError` subclass defined by the external comms base), `KeyError`
(from indexing `_comms` with a missing id), and any exception that is not
a `RuntimeError`. -/
inductive Exc where
  | runtimeError
  | commError
  | keyError
  | otherError
deriving DecidableEq

/-- Whether `except RuntimeError` catches the exception.  `CommError`
derives from `RuntimeError` in the external comms base; `KeyError` and
other exception classes do not. -/
def isRuntimeError : Exc → Bool
  | .runtimeError => true
  | .commError => true
  | _ => false

/-- Outcome of running the abstracted base-class body (the `yield` of the
context manager / the `super()` dispatch): a returned value, or an
exception that is / is not a `RuntimeError`. -/
inductive BodyOutcome where
  | value (v : Nat)
  | raiseRuntime
  | raiseOther
deriving DecidableEq

/-- Result of a dispatcher- or router-level operation: a returned value,
a silent `return` (message dropped), or a propagating exception. -/
inductive CallResult where
  | value (v : Nat)
  | dropped
  | raised (e : Exc)
deriving DecidableEq

/-- Lift a body outcome to a call result. -/
def outcomeToResult : BodyOutcome → CallResult
  | .value v => .value v
  | .raiseRuntime => .raised .runtimeError
  | .raiseOther => .raised .otherError

/-- Whether comm id `i` is a key of the `_comms` dict. -/
def hasComm (comms : List (Nat × Lane)) (i : Nat) : Bool :=
  comms.any (fun p => p.1 == i)

/-- Assign lane `l` to the comm with id `i` (the effect of
`self._comms[i]['comm']._send_channel = l`). -/
def setLane (comms : List (Nat × Lane)) (i : Nat) (l : Lane) :
    List (Nat × Lane) :=
  comms.map (fun p => if p.1 == i then (p.1, l) else p)

/-- Current `_send_channel` of the comm with id `i`. -/
def lookupLane (comms : List (Nat × Lane)) (i : Nat) : Option Lane :=
  (comms.find? (fun p => p.1 == i)).map Prod.snd

/-- Run the assignment loop `for comm_id in id_list: self._comms[comm_id]
['comm']._send_channel = l`.  The boolean is `false` when a lookup raised
`KeyError`; the returned list is the (possibly partially updated) dict. -/
def setLaneAll (l : Lane) : List Nat → List (Nat × Lane) →
    List (Nat × Lane) × Bool
  | [], comms => (comms, true)
  | i :: rest, comms =>
    if hasComm comms i then setLaneAll l rest (setLane comms i l)
    else (comms, false)

/-- Modelled from the spec: the external base capability
`get_comm_id_list` matches "a single id or all" — with no id it returns
every key of `_comms`, otherwise the single given id. -/
def get_comm_id_list (s : KCState) (comm_id : Option Nat) : List Nat :=
  match comm_id with
  | none => s.comms.map Prod.fst
  | some i => [i]

/-- `comm_channel_manager(comm_id, queue_message)` applied to a body.
With `queue_message` it just runs the body.  Otherwise, if the comm
channel is not connected it requests the comm config again and raises
`CommError("Comm not connected.")`.  Otherwise it rebinds every matched
comm's `_send_channel` to the comm channel, runs the body, and in a
`finally` block rebinds them all to the shell channel. -/
def comm_channel_manager (s : KCState) (comm_id : Option Nat)
    (queue_message : Bool) (body : KCState → KCState × BodyOutcome) :
    KCState × CallResult :=
  if queue_message then
    let r := body s
    (r.1, outcomeToResult r.2)
  else if comm_channel_connected s = false then
    ({ s with comm_config_requests := s.comm_config_requests + 1 },
      .raised .commError)
  else
    let ids := get_comm_id_list s comm_id
    let rb := setLaneAll .priority ids s.comms
    if rb.2 = false then ({ s with comms := rb.1 }, .raised .keyError)
    else
      let r := body { s with comms := rb.1 }
      let rs := setLaneAll .shell ids r.1.comms
      if rs.2 = false then ({ r.1 with comms := rs.1 }, .raised .keyError)
      else ({ r.1 with comms := rs.1 }, outcomeToResult r.2)

/-- `_set_call_return_value` override: compute
`queue_message = not self.comm_channel_connected()` and delegate to the
base behaviour inside `comm_channel_manager`. -/
def set_call_return_value (s : KCState) (calling_comm_id : Option Nat)
    (body : KCState → KCState × BodyOutcome) : KCState × CallResult :=
  let queue_message := !(comm_channel_connected s)
  comm_channel_manager s calling_comm_id queue_message body

/-- The `settings` dict of an incoming call, restricted to the keys the
dispatcher reads; `none` models an absent key. -/
structure Settings where
  blocking : Option Bool
  interrupt : Option Bool
deriving DecidableEq

/-- `'key' in settings and settings['key']`. -/
def getFlag : Option Bool → Bool
  | some b => b
  | none => false

/-- The `try`/`except RuntimeError` around the routed base dispatch in
`_get_call_return_value`: run the base body inside
`comm_channel_manager(comm_id, queue_message=not interrupt)`; a
`RuntimeError` is re-raised for blocking calls and logged and swallowed
otherwise; other exceptions propagate. -/
def tryDispatch (s : KCState) (interrupt blocking : Bool)
    (comm_id : Option Nat) (body : KCState → KCState × BodyOutcome) :
    KCState × CallResult :=
  match comm_channel_manager s comm_id (!interrupt) body with
  | (s', .raised e) =>
    if isRuntimeError e then
      if blocking then (s', .raised e)
      else ({ s' with log_entries := s'.log_entries + 1 }, .dropped)
    else (s', .raised e)
  | r => r

/-- `_get_call_return_value(call_dict, call_data, comm_id)`.  Reads the
blocking flag; a dead kernel makes blocking calls raise
`RuntimeError("Kernel is dead")` and non-blocking ones log and drop.
Then `interrupt = interrupt or blocking`; if interrupt is wanted while the
comm channel is disconnected, one `_send_comm_config` remote call is
issued, a debug entry is logged, interrupt is cleared, and blocking calls
raise `CommError("Cannot block on a disconnected comm")`.  Finally the
base dispatch runs inside the channel manager under the
`except RuntimeError` policy. -/
def get_call_return_value (s : KCState) (settings : Settings)
    (comm_id : Option Nat) (body : KCState → KCState × BodyOutcome) :
    KCState × CallResult :=
  let blocking := getFlag settings.blocking
  if s.alive = false then
    if blocking then (s, .raised .runtimeError)
    else ({ s with log_entries := s.log_entries + 1 }, .dropped)
  else
    let interrupt := getFlag settings.interrupt || blocking
    if interrupt && !(comm_channel_connected s) then
      let s1 := { s with
        comm_config_requests := s.comm_config_requests + 1,
        log_entries := s.log_entries + 1 }
      if blocking then (s1, .raised .commError)
      else tryDispatch s1 false blocking comm_id body
    else tryDispatch s interrupt blocking comm_id body

/-- The world observed by the blocking waiter: the `_reply_inbox` (ids
whose reply arrived), the `_reply_waitlist` (ids of outstanding blocking
calls), and kernel liveness. -/
structure World where
  reply_inbox : List Nat
  reply_waitlist : List Nat
  alive : Bool
deriving DecidableEq

/-- A wakeup that makes `wait_loop.exec_()` return: a reply message was
handled (`_handle_remote_call_reply` stores it in the inbox, deletes it
from the waitlist and emits `_sig_got_reply`), the heartbeat channel
reported `kernel_died`, or the single-shot timer fired. -/
inductive WaitEvent where
  | replyArrived (i : Nat)
  | peerDied
  | timerFired
deriving DecidableEq

/-- State of one `_wait` activation: the observed world, whether the
single-shot `wait_timeout` timer is still active, and whether the
`signal.connect(wait_loop.quit)` and
`hb_channel.kernel_died.connect(wait_loop.quit)` subscriptions are
currently installed. -/
structure LoopState where
  world : World
  timer_active : Bool
  sub_signal : Bool
  sub_kernel_died : Bool
deriving DecidableEq

/-- How a `_wait` activation ends: normal return, `RuntimeError("Kernel is
dead")`, `TimeoutError(timeout_msg)`, or still blocked inside
`wait_loop.exec_()` with no wakeup left in the trace. -/
inductive WaitResult where
  | ok
  | kernelDead
  | timedOut (msg : String)
  | stuck
deriving DecidableEq

/-- Effect of one wakeup on the loop state. -/
def stepEvent (st : LoopState) : WaitEvent → LoopState
  | .replyArrived i =>
    { st with world :=
      { st.world with
        reply_inbox := st.world.reply_inbox ++ [i],
        reply_waitlist := st.world.reply_waitlist.filter (fun x => x != i) } }
  | .peerDied => { st with world := { st.world with alive := false } }
  | .timerFired => { st with timer_active := false }

/-- One evaluation of the `while` head of `_wait`: if the condition holds,
stop the timer, disconnect both subscriptions and return; if the timer is
no longer active, disconnect both subscriptions, then return if the
condition holds, raise `RuntimeError` if the kernel is dead, and raise
`TimeoutError(msg)` otherwise.  `none` means the loop body runs
(`wait_loop.exec_()` blocks for the next wakeup). -/
def loopCheck (condition : World → Bool) (msg : String) (st : LoopState) :
    Option (LoopState × WaitResult) :=
  if condition st.world then
    let st0 := { st with
      timer_active := false, sub_signal := false, sub_kernel_died := false }
    some (st0, .ok)
  else if st.timer_active = false then
    let st1 := { st with sub_signal := false, sub_kernel_died := false }
    if condition st1.world then some (st1, .ok)
    else if st1.world.alive = false then some (st1, .kernelDead)
    else some (st1, .timedOut msg)
  else none

/-- The `while not condition():` loop of `_wait`, driven by a trace of
wakeups; each `wait_loop.exec_()` consumes the next wakeup. -/
def waitLoop (condition : World → Bool) (msg : String) :
    LoopState → List WaitEvent → LoopState × WaitResult
  | st, [] =>
    match loopCheck condition msg st with
    | some r => r
    | none => (st, .stuck)
  | st, e :: rest =>
    match loopCheck condition msg st with
    | some r => r
    | none => waitLoop condition msg (stepEvent st e) rest

/-- `_wait(condition, signal, timeout_msg, timeout)`: return at once if the
condition already holds; raise `RuntimeError` at once if the kernel is
already dead; otherwise arm the timer, install both subscriptions and run
the loop. -/
def wait (condition : World → Bool) (msg : String) (w : World)
    (events : List WaitEvent) : LoopState × WaitResult :=
  if condition w then (⟨w, false, false, false⟩, .ok)
  else if w.alive = false then (⟨w, false, false, false⟩, .kernelDead)
  else waitLoop condition msg ⟨w, true, true, true⟩ events

/-- The `got_reply` closure of `_wait_reply`: `call_id in self._reply_inbox`. -/
def got_reply (call_id : Nat) (w : World) : Bool :=
  w.reply_inbox.any (fun x => x == call_id)

/-- The eager string formatting
`"Timeout while waiting for {}".format(self._reply_waitlist)`. -/
def formatWaitlist (l : List Nat) : String :=
  "Timeout while waiting for " ++ toString l

/-- `_wait_reply(call_id, call_name, timeout)`: format the timeout message
from the current waitlist, then wait on `got_reply` with `_sig_got_reply`
as the interrupting signal. -/
def wait_reply (call_id : Nat) (w : World) (events : List WaitEvent) :
    LoopState × WaitResult :=
  wait (got_reply call_id) (formatWaitlist w.reply_waitlist) w events

/-- Fold of reply wakeups over a world, used to describe the world reached
after a sequence of replies for other calls was handled. -/
def applyReplies (js : List Nat) (w : World) : World :=
  js.foldl
    (fun t j =>
      { t with
        reply_inbox := t.reply_inbox ++ [j],
        reply_waitlist := t.reply_waitlist.filter (fun x => x != j) }) w

/-- A concrete reachable state used by the witnesses: a live local kernel,
one comm with id 1 bound to the shell channel, no comm channel negotiated
yet. -/
def baseState : KCState :=
  { remote_comm_port := none, comm_port := none, comm_channel := none,
    ssh_parameters := none, session := 7, next_channel_id := 0,
    comms := [(1, .shell)], port_changed_events := 0,
    comm_config_requests := 0, log_entries := 0, alive := true }

/-- The state reached from `baseState` after port 5555 was advertised and
negotiated and the comm channel was then shut down
(`shutdown_comm_channel` sets `comm_channel = None` but clears neither
`remote_comm_port` nor `client.comm_port`). -/
def staleState : KCState :=
  { baseState with
    remote_comm_port := some 5555, comm_port := some 5555,
    next_channel_id := 1, port_changed_events := 1 }

/-- A state whose kernel client has ssh tunnel parameters. -/
def sshState : KCState :=
  { baseState with ssh_parameters := some () }

/-- A state with the comm channel connected. -/
def connState : KCState :=
  { baseState with
    remote_comm_port := some 5555, comm_port := some 5555,
    comm_channel := some ⟨5555, 7, 0⟩, next_channel_id := 1,
    port_changed_events := 1 }

/-- A state whose kernel is dead. -/
def deadState : KCState :=
  { baseState with alive := false }

/-- C1, counterexample.  In the state reached by negotiating port 5555 and
then shutting the comm channel down, no priority lane is installed, yet
re-advertising the same port 5555 is a complete no-op: `_set_comm_port`
returns at its first guard, constructs no channel, replaces nothing and
emits no `_sig_comm_port_changed` — the claim's "in particular" case
(advertised port equal to the previously advertised one while no priority
lane is installed) does not produce a new lane. -/
theorem set_comm_port_stale_port_noop_cex :
    staleState.comm_channel = none ∧
    set_comm_port ⟨0, true⟩ staleState (some 5555) = (staleState, .ok) := by
  exact ⟨rfl, rfl⟩

/-- C1 (amended).  For a present advertised port that differs from the
recorded `remote_comm_port`, on a local (non-tunneled) connection: if the
port also differs from the client's currently bound `comm_port` (or no
port is bound yet), a new channel bound to that port is constructed with
the connection's session identity, the channel reference is replaced and
the one-shot changed event is emitted; if the client's bound `comm_port`
already equals it, only `remote_comm_port` is updated.  When the advertised
port equals the recorded `remote_comm_port`, the call is a no-op even if no
channel is installed. -/
theorem set_comm_port_install_condition (env : TunnelEnv) (s : KCState)
    (p : Nat) (hssh : s.ssh_parameters = none)
    (hnew : some p ≠ s.remote_comm_port) :
    (s.comm_port ≠ some p →
      set_comm_port env s (some p) =
        ({ s with
            remote_comm_port := some p, comm_port := some p,
            comm_channel := some ⟨p, s.session, s.next_channel_id⟩,
            next_channel_id := s.next_channel_id + 1,
            port_changed_events := s.port_changed_events + 1 }, .ok)) ∧
    (s.comm_port = some p →
      set_comm_port env s (some p) =
        ({ s with remote_comm_port := some p }, .ok)) ∧
    (∀ env2 : TunnelEnv,
      set_comm_port env2 { s with remote_comm_port := some p } (some p) =
        ({ s with remote_comm_port := some p }, .ok)) := by
  refine ⟨?_, ?_, ?_⟩
  · intro hcp
    simp [set_comm_port, hnew, hssh, install_channel, hcp]
  · intro hcp
    simp [set_comm_port, hnew, hssh, install_channel, hcp]
  · intro env2
    simp [set_comm_port]

/-- C1, witness for the amended theorem: advertising 5555 to the fresh
`baseState` installs a channel bound to 5555 with the session identity and
fires the changed event. -/
theorem set_comm_port_install_condition_witness :
    set_comm_port ⟨0, true⟩ baseState (some 5555) =
      ({ baseState with
          remote_comm_port := some 5555, comm_port := some 5555,
          comm_channel := some ⟨5555, 7, 0⟩, next_channel_id := 1,
          port_changed_events := 1 }, .ok) :=
  (set_comm_port_install_condition ⟨0, true⟩ baseState 5555 (by decide)
    (by decide)).1 (by decide)

/-- C7 (confirmed).  `_set_comm_port` is no-op-stable and idempotent: an
absent port changes nothing; a port equal to the recorded
`remote_comm_port` changes nothing; and advertising a fresh port twice in
a row yields exactly one channel construction and exactly one changed
event across the two calls (the second call leaves the state of the first
untouched). -/
theorem set_comm_port_idempotent (env env2 : TunnelEnv) (s : KCState)
    (p : Nat) (hssh : s.ssh_parameters = none)
    (h1 : some p ≠ s.remote_comm_port) (h2 : s.comm_port ≠ some p) :
    set_comm_port env s none = (s, .ok) ∧
    (∀ q, s.remote_comm_port = some q →
      set_comm_port env s (some q) = (s, .ok)) ∧
    (set_comm_port env2 (set_comm_port env s (some p)).1 (some p) =
      ((set_comm_port env s (some p)).1, .ok) ∧
     (set_comm_port env s (some p)).1.port_changed_events =
      s.port_changed_events + 1 ∧
     (set_comm_port env s (some p)).1.next_channel_id =
      s.next_channel_id + 1) := by
  have hfirst : set_comm_port env s (some p) =
      ({ s with
          remote_comm_port := some p, comm_port := some p,
          comm_channel := some ⟨p, s.session, s.next_channel_id⟩,
          next_channel_id := s.next_channel_id + 1,
          port_changed_events := s.port_changed_events + 1 }, .ok) := by
    simp [set_comm_port, h1, hssh, install_channel, h2]
  refine ⟨rfl, ?_, ?_, ?_, ?_⟩
  · intro q hq
    simp [set_comm_port, hq]
  · rw [hfirst]
    simp [set_comm_port]
  · rw [hfirst]
  · rw [hfirst]

/-- C7, witness: from `baseState`, two advertisements of port 5555 in a
row construct exactly one channel and fire exactly one event. -/
theorem set_comm_port_idempotent_witness :
    set_comm_port ⟨9, false⟩
        (set_comm_port ⟨0, true⟩ baseState (some 5555)).1 (some 5555) =
      ((set_comm_port ⟨0, true⟩ baseState (some 5555)).1, .ok) ∧
    (set_comm_port ⟨0, true⟩ baseState (some 5555)).1.port_changed_events = 1 ∧
    (set_comm_port ⟨0, true⟩ baseState (some 5555)).1.next_channel_id = 1 :=
  (set_comm_port_idempotent ⟨0, true⟩ ⟨9, false⟩ baseState 5555 (by decide)
    (by decide) (by decide)).2.2

/-- C10 (confirmed).  On a tunneled (remote) connection, a fresh port
advertisement records the new `remote_comm_port` before the ssh tunnel is
attempted; if the tunnel fails, the failure propagates with the port
already recorded and no channel installed, and any later advertisement of
that same port — whatever the tunnel environment would do — returns at the
first guard: the tunnel is never retried and no lane is ever installed. -/
theorem tunnel_failure_port_recorded (env : TunnelEnv) (s : KCState)
    (p : Nat) (hssh : s.ssh_parameters = some ())
    (hfail : env.tunnel_ok = false) (hnew : some p ≠ s.remote_comm_port) :
    set_comm_port env s (some p) =
      ({ s with remote_comm_port := some p }, .tunnelError) ∧
    (∀ env2 : TunnelEnv,
      set_comm_port env2 { s with remote_comm_port := some p } (some p) =
        ({ s with remote_comm_port := some p }, .ok)) := by
  constructor
  · simp [set_comm_port, hnew, hssh, hfail]
  · intro env2
    simp [set_comm_port]

/-- C10, witness: a failing tunnel for port 6000 on `sshState` leaves the
port recorded and the channel absent, and re-advertising 6000 afterwards
is a no-op even with a tunnel environment that would succeed. -/
theorem tunnel_failure_port_recorded_witness :
    set_comm_port ⟨33, false⟩ sshState (some 6000) =
      ({ sshState with remote_comm_port := some 6000 }, .tunnelError) ∧
    set_comm_port ⟨34, true⟩ { sshState with remote_comm_port := some 6000 }
        (some 6000) =
      ({ sshState with remote_comm_port := some 6000 }, .ok) := by
  have h := tunnel_failure_port_recorded ⟨33, false⟩ sshState 6000 (by decide)
    (by decide) (by decide)
  exact ⟨h.1, h.2 ⟨34, true⟩⟩

/-- Whether a call result is a raised `CommError` (the router's branch for
a disconnected comm raises `CommError("Comm not connected.")`). -/
def raisedCommError : CallResult → Bool
  | .raised .commError => true
  | _ => false

theorem raisedCommError_outcome (o : BodyOutcome) :
    raisedCommError (outcomeToResult o) = false := by
  cases o <;> rfl

theorem raisedCommError_manager (s : KCState) (cid : Option Nat)
    (body : KCState → KCState × BodyOutcome) :
    raisedCommError
      (comm_channel_manager s cid (!(comm_channel_connected s)) body).2 =
      false := by
  cases hc : comm_channel_connected s with
  | false =>
    simp [comm_channel_manager, hc, raisedCommError_outcome]
  | true =>
    simp only [comm_channel_manager, hc, Bool.not_true, Bool.false_eq_true,
      if_false, Bool.true_eq_false, reduceIte]
    split
    · rfl
    · split
      · rfl
      · exact raisedCommError_outcome _

/-- The routed dispatch with `interrupt = false` for a non-blocking call:
the body runs queued and the `except RuntimeError` policy is applied to
its outcome. -/
theorem tryDispatch_queued_nonblocking (s : KCState) (cid : Option Nat)
    (body : KCState → KCState × BodyOutcome) :
    tryDispatch s false false cid body =
      match body s with
      | (s2, .value v) => (s2, .value v)
      | (s2, .raiseRuntime) =>
        ({ s2 with log_entries := s2.log_entries + 1 }, .dropped)
      | (s2, .raiseOther) => (s2, .raised .otherError) := by
  rcases hr : body s with ⟨s2, o⟩
  cases o <;>
    simp [tryDispatch, comm_channel_manager, hr, outcomeToResult,
      isRuntimeError]

/-- C5 (confirmed).  The reply path `_set_call_return_value` can never hit
the router's `CommError("Comm not connected.")` branch: it computes
`queue_message = not comm_channel_connected()` against the same state the
router then re-checks, so whenever the router would test connectivity, the
channel is connected.  In particular, with a disconnected channel the
reply degrades to queued delivery: the base behaviour runs unchanged with
no lane rebinding. -/
theorem reply_never_comm_not_connected (s : KCState) (cid : Option Nat)
    (body : KCState → KCState × BodyOutcome) :
    raisedCommError (set_call_return_value s cid body).2 = false ∧
    set_call_return_value { s with comm_channel := none } cid body =
      ((body { s with comm_channel := none }).1,
        outcomeToResult (body { s with comm_channel := none }).2) := by
  constructor
  · exact raisedCommError_manager s cid body
  · simp [set_call_return_value, comm_channel_manager, comm_channel_connected]

/-- C5, witness: on the disconnected `baseState` the reply path runs the
base behaviour queued and raises nothing. -/
theorem reply_never_comm_not_connected_witness :
    raisedCommError
      (set_call_return_value baseState (some 1)
        (fun st => (st, .value 2))).2 = false :=
  (reply_never_comm_not_connected baseState (some 1)
    (fun st => (st, .value 2))).1

/-- C8 (confirmed).  When the kernel is not alive, `_get_call_return_value`
short-circuits before any routing or dispatch: a blocking call raises
`RuntimeError("Kernel is dead")` with the state untouched, and a
non-blocking call is dropped with exactly one log entry; in both cases the
result does not depend on the base dispatch body at all, no renegotiation
request is issued and no reply is produced. -/
theorem dispatch_dead_kernel_policy (s : KCState) (settings : Settings)
    (cid : Option Nat) (body : KCState → KCState × BodyOutcome)
    (hdead : s.alive = false) :
    get_call_return_value s settings cid body =
      if getFlag settings.blocking then (s, .raised .runtimeError)
      else ({ s with log_entries := s.log_entries + 1 }, .dropped) := by
  cases hb : getFlag settings.blocking <;>
    simp [get_call_return_value, hdead, hb]

/-- C8, witness: on `deadState`, a blocking call raises at once and a
non-blocking call is dropped with one log entry. -/
theorem dispatch_dead_kernel_policy_witness :
    deadState.alive = false ∧
    get_call_return_value deadState ⟨some true, none⟩ (some 1)
        (fun st => (st, .value 3)) = (deadState, .raised .runtimeError) ∧
    get_call_return_value deadState ⟨none, none⟩ (some 1)
        (fun st => (st, .value 3)) =
      ({ deadState with log_entries := 1 }, .dropped) := by
  refine ⟨rfl, ?_, ?_⟩
  · rw [dispatch_dead_kernel_policy deadState ⟨some true, none⟩ (some 1)
      (fun st => (st, .value 3)) rfl]
    decide
  · rw [dispatch_dead_kernel_policy deadState ⟨none, none⟩ (some 1)
      (fun st => (st, .value 3)) rfl]
    decide

/-- C3 (confirmed).  For a live kernel, when interrupt is wanted
(`interrupt or blocking`) but the comm channel is disconnected, exactly one
`_send_comm_config` renegotiation request is issued (together with one
debug log entry); a blocking call then raises
`CommError("Cannot block on a disconnected comm")` without ever running
the base dispatch (the result does not depend on `body`), while a
non-blocking call still dispatches, in queued mode — the body runs on the
state as left by the renegotiation request, with no lane rebinding
performed by the router. -/
theorem dispatch_disconnected_interrupt_policy (s : KCState)
    (settings : Settings) (cid : Option Nat)
    (body : KCState → KCState × BodyOutcome)
    (halive : s.alive = true)
    (hwant : (getFlag settings.interrupt || getFlag settings.blocking) = true)
    (hdisc : comm_channel_connected s = false) :
    get_call_return_value s settings cid body =
      (let s1 := { s with
        comm_config_requests := s.comm_config_requests + 1,
        log_entries := s.log_entries + 1 }
       if getFlag settings.blocking then (s1, .raised .commError)
       else
         match body s1 with
         | (s2, .value v) => (s2, .value v)
         | (s2, .raiseRuntime) =>
           ({ s2 with log_entries := s2.log_entries + 1 }, .dropped)
         | (s2, .raiseOther) => (s2, .raised .otherError)) := by
  cases hb : getFlag settings.blocking with
  | true =>
    simp [get_call_return_value, halive, hb, hdisc]
  | false =>
    have hi : getFlag settings.interrupt = true := by
      simpa [hb] using hwant
    simp only [get_call_return_value, halive, hb, hi, hdisc]
    simp only [Bool.false_eq_true, if_false, Bool.or_false, Bool.not_false,
      Bool.and_true, if_true, reduceIte]
    exact tryDispatch_queued_nonblocking _ cid body

/-- C3, witness: on the disconnected `baseState`, a blocking call fails
with `CommError` after one renegotiation request and the handler never
runs; a non-blocking interruptible call dispatches queued after the same
single renegotiation request. -/
theorem dispatch_disconnected_interrupt_policy_witness :
    baseState.alive = true ∧ comm_channel_connected baseState = false ∧
    get_call_return_value baseState ⟨some true, none⟩ (some 1)
        (fun st => (st, .value 3)) =
      ({ baseState with comm_config_requests := 1, log_entries := 1 },
        .raised .commError) ∧
    get_call_return_value baseState ⟨none, some true⟩ (some 1)
        (fun st => (st, .value 3)) =
      ({ baseState with comm_config_requests := 1, log_entries := 1 },
        .value 3) := by
  refine ⟨rfl, rfl, ?_, ?_⟩
  · rw [dispatch_disconnected_interrupt_policy baseState ⟨some true, none⟩
      (some 1) (fun st => (st, .value 3)) rfl (by decide) rfl]
    decide
  · rw [dispatch_disconnected_interrupt_policy baseState ⟨none, some true⟩
      (some 1) (fun st => (st, .value 3)) rfl (by decide) rfl]
    decide

/-- C9, counterexample.  A non-blocking call whose dispatch fails with an
exception that is not a `RuntimeError` is NOT recovered locally: the
`except RuntimeError` clause does not catch it, so it propagates out of
`_get_call_return_value` (and no log entry is produced) — refuting the
claim that such a failure, "whatever its kind", is logged and swallowed. -/
theorem dispatch_other_error_propagates_cex :
    getFlag (Settings.mk none none).blocking = false ∧
    get_call_return_value baseState ⟨none, none⟩ (some 1)
        (fun st => (st, .raiseOther)) = (baseState, .raised .otherError) :=
  ⟨rfl, rfl⟩

/-- C9 (amended).  Only `RuntimeError` dispatch failures are subject to
the recovery policy: a non-blocking call whose dispatch raises a
`RuntimeError` is recovered locally with exactly one log entry, no reply
and nothing propagating, while a failure of any other kind propagates out
of the dispatcher; for a blocking call (over a connected channel) the
`RuntimeError` is re-raised to the caller after the lane is restored to
the shell channel. -/
theorem dispatch_runtime_error_policy (s : KCState) (settings : Settings)
    (cid : Option Nat) (body : KCState → KCState × BodyOutcome)
    (s2 : KCState) (halive : s.alive = true)
    (hnb : getFlag settings.blocking = false)
    (hni : getFlag settings.interrupt = false) :
    (body s = (s2, .raiseRuntime) →
      get_call_return_value s settings cid body =
        ({ s2 with log_entries := s2.log_entries + 1 }, .dropped)) ∧
    (body s = (s2, .raiseOther) →
      get_call_return_value s settings cid body =
        (s2, .raised .otherError)) ∧
    (∀ (settings2 : Settings) (j : Nat) (s3 : KCState),
      getFlag settings2.blocking = true →
      comm_channel_connected s = true →
      hasComm s.comms j = true →
      body { s with comms := setLane s.comms j .priority } =
        (s3, .raiseRuntime) →
      hasComm s3.comms j = true →
      get_call_return_value s settings2 (some j) body =
        ({ s3 with comms := setLane s3.comms j .shell },
          .raised .runtimeError)) := by
  refine ⟨?_, ?_, ?_⟩
  · intro hr
    simp [get_call_return_value, halive, hnb, hni, tryDispatch,
      comm_channel_manager, hr, outcomeToResult, isRuntimeError]
  · intro hr
    simp [get_call_return_value, halive, hnb, hni, tryDispatch,
      comm_channel_manager, hr, outcomeToResult, isRuntimeError]
  · intro settings2 j s3 hb2 hconn hj hr hj3
    simp only [get_call_return_value, halive, hb2, hconn]
    simp only [Bool.or_true, Bool.not_true, Bool.and_false,
      Bool.false_eq_true, if_false, reduceIte]
    simp [tryDispatch, comm_channel_manager, hconn, get_comm_id_list,
      setLaneAll, hj, hr, hj3, outcomeToResult, isRuntimeError]

/-- C9, witness for the amended theorem: on the live `baseState`, a
non-blocking call whose dispatch raises `RuntimeError` is dropped with one
log entry. -/
theorem dispatch_runtime_error_policy_witness :
    baseState.alive = true ∧
    get_call_return_value baseState ⟨none, none⟩ (some 1)
        (fun st => (st, .raiseRuntime)) =
      ({ baseState with log_entries := 1 }, .dropped) :=
  ⟨rfl,
    (dispatch_runtime_error_policy baseState ⟨none, none⟩ (some 1)
      (fun st => (st, .raiseRuntime)) baseState rfl rfl rfl).1 rfl⟩

theorem hasComm_setLane (c : List (Nat × Lane)) (j : Nat) (l : Lane)
    (i : Nat) : hasComm (setLane c j l) i = hasComm c i := by
  induction c with
  | nil => rfl
  | cons p t ih =>
    simp only [setLane, List.map_cons, hasComm, List.any_cons] at ih ⊢
    rw [ih]
    cases hpj : p.1 == j <;>
      simp only [hpj, Bool.false_eq_true, if_false, if_true, reduceIte]

theorem setLaneAll_success (l : Lane) (ids : List Nat)
    (c : List (Nat × Lane)) (h : ∀ i ∈ ids, hasComm c i = true) :
    (setLaneAll l ids c).2 = true := by
  induction ids generalizing c with
  | nil => rfl
  | cons j rest ih =>
    have hj : hasComm c j = true := h j (by simp)
    simp only [setLaneAll, hj, if_true]
    exact ih _ (fun i hi => by
      rw [hasComm_setLane]; exact h i (by simp [hi]))

theorem lookupLane_cons (p : Nat × Lane) (t : List (Nat × Lane)) (i : Nat) :
    lookupLane (p :: t) i =
      if p.1 == i then some p.2 else lookupLane t i := by
  cases hpi : p.1 == i <;> simp [lookupLane, List.find?_cons, hpi]

theorem setLane_cons (p : Nat × Lane) (t : List (Nat × Lane)) (j : Nat)
    (l : Lane) :
    setLane (p :: t) j l =
      (if p.1 == j then (p.1, l) else p) :: setLane t j l := rfl

theorem lookupLane_setLane_self (c : List (Nat × Lane)) (i : Nat) (l : Lane)
    (h : hasComm c i = true) : lookupLane (setLane c i l) i = some l := by
  induction c with
  | nil => simp [hasComm] at h
  | cons p t ih =>
    rw [setLane_cons, lookupLane_cons]
    simp only [hasComm, List.any_cons, Bool.or_eq_true] at h
    cases hpi : p.1 == i with
    | true => simp only [hpi, if_true, reduceIte]
    | false =>
      simp only [hpi, Bool.false_eq_true, if_false, reduceIte]
      rcases h with h | h
      · simp [hpi] at h
      · exact ih h

theorem lookupLane_setLane_other (c : List (Nat × Lane)) (j : Nat)
    (l : Lane) (i : Nat) (hij : ¬ i = j) :
    lookupLane (setLane c j l) i = lookupLane c i := by
  induction c with
  | nil => rfl
  | cons p t ih =>
    rw [setLane_cons, lookupLane_cons, lookupLane_cons]
    cases hpj : p.1 == j with
    | true =>
      have hpj' : p.1 = j := by simpa using hpj
      have hpi : (p.1 == i) = false := by
        rw [hpj']
        exact beq_eq_false_iff_ne.mpr (fun hc => hij hc.symm)
      simp only [hpj, if_true, reduceIte, hpi, Bool.false_eq_true, if_false,
        ih]
    | false =>
      simp only [hpj, Bool.false_eq_true, if_false, reduceIte]
      cases hpi : p.1 == i with
      | true => simp only [hpi, if_true, reduceIte]
      | false => simp only [hpi, Bool.false_eq_true, if_false, reduceIte, ih]

theorem lookupLane_setLaneAll_not_mem (l : Lane) (ids : List Nat)
    (c : List (Nat × Lane)) (i : Nat) (h : i ∉ ids) :
    lookupLane ((setLaneAll l ids c).1) i = lookupLane c i := by
  induction ids generalizing c with
  | nil => rfl
  | cons j rest ih =>
    have hij : ¬ i = j := fun he => h (by simp [he])
    have hrest : i ∉ rest := fun he => h (by simp [he])
    cases hj : hasComm c j with
    | true =>
      simp only [setLaneAll, hj, if_true]
      rw [ih _ hrest, lookupLane_setLane_other c j l i hij]
    | false => simp [setLaneAll, hj]

theorem lookupLane_setLaneAll_mem (l : Lane) (ids : List Nat)
    (c : List (Nat × Lane)) (h : ∀ i ∈ ids, hasComm c i = true) :
    ∀ i ∈ ids, lookupLane ((setLaneAll l ids c).1) i = some l := by
  induction ids generalizing c with
  | nil => intro i hi; cases hi
  | cons j rest ih =>
    intro i hi
    have hj : hasComm c j = true := h j (by simp)
    simp only [setLaneAll, hj, if_true]
    by_cases hir : i ∈ rest
    · exact ih _ (fun k hk => by
        rw [hasComm_setLane]; exact h k (by simp [hk])) i hir
    · have hij : i = j := by
        rcases List.mem_cons.mp hi with h' | h'
        · exact h'
        · exact absurd h' hir
      rw [lookupLane_setLaneAll_not_mem l rest _ i hir]
      subst hij
      exact lookupLane_setLane_self c i l hj

/-- C6 (confirmed).  With `queue_message = false` and a connected channel,
`comm_channel_manager` rebinds every matched comm's `_send_channel` to the
comm channel for the duration of the body (the state the body observes has
them all bound to the priority lane), and — whether the body returns or
raises — the `finally` block rebinds every matched comm back to the shell
channel, itself raising nothing (provided, as in every reachable use, the
matched ids are still registered after the body).  With
`queue_message = true`, the manager is the body itself: no binding is
touched. -/
theorem router_rebind_restore (s : KCState) (comm_id : Option Nat)
    (body : KCState → KCState × BodyOutcome)
    (hconn : comm_channel_connected s = true)
    (hids : ∀ i ∈ get_comm_id_list s comm_id, hasComm s.comms i = true)
    (hbody : ∀ i ∈ get_comm_id_list s comm_id,
      hasComm (body { s with
        comms := (setLaneAll .priority (get_comm_id_list s comm_id)
          s.comms).1 }).1.comms i = true) :
    (∀ i ∈ get_comm_id_list s comm_id,
      lookupLane ((setLaneAll .priority (get_comm_id_list s comm_id)
        s.comms).1) i = some .priority) ∧
    comm_channel_manager s comm_id false body =
      ({ (body { s with
            comms := (setLaneAll .priority (get_comm_id_list s comm_id)
              s.comms).1 }).1 with
          comms := (setLaneAll .shell (get_comm_id_list s comm_id)
            (body { s with
              comms := (setLaneAll .priority (get_comm_id_list s comm_id)
                s.comms).1 }).1.comms).1 },
        outcomeToResult (body { s with
          comms := (setLaneAll .priority (get_comm_id_list s comm_id)
            s.comms).1 }).2) ∧
    (∀ i ∈ get_comm_id_list s comm_id,
      lookupLane ((setLaneAll .shell (get_comm_id_list s comm_id)
        (body { s with
          comms := (setLaneAll .priority (get_comm_id_list s comm_id)
            s.comms).1 }).1.comms).1) i = some .shell) ∧
    (∀ body2 : KCState → KCState × BodyOutcome,
      comm_channel_manager s comm_id true body2 =
        ((body2 s).1, outcomeToResult (body2 s).2)) := by
  refine ⟨lookupLane_setLaneAll_mem _ _ _ hids, ?_,
    lookupLane_setLaneAll_mem _ _ _ hbody, fun body2 => rfl⟩
  have h1 : (setLaneAll Lane.priority (get_comm_id_list s comm_id)
      s.comms).2 = true := setLaneAll_success _ _ _ hids
  have h2 : (setLaneAll Lane.shell (get_comm_id_list s comm_id)
      (body { s with
        comms := (setLaneAll .priority (get_comm_id_list s comm_id)
          s.comms).1 }).1.comms).2 = true := setLaneAll_success _ _ _ hbody
  simp only [comm_channel_manager, hconn, h1, h2]
  simp

/-- C6, witness: on `connState` with comm id 1, a body that logs and then
raises a `RuntimeError` observes the comm bound to the priority lane, and
the manager's result has the comm restored to the shell lane with the
body's exception propagating; the queued mode leaves the body untouched. -/
theorem router_rebind_restore_witness :
    comm_channel_connected connState = true ∧
    lookupLane ((setLaneAll .priority (get_comm_id_list connState (some 1))
      connState.comms).1) 1 = some .priority ∧
    comm_channel_manager connState (some 1) false
        (fun st => ({ st with log_entries := st.log_entries + 1 },
          .raiseRuntime)) =
      ({ connState with comms := [(1, Lane.shell)], log_entries := 1 },
        .raised .runtimeError) := by
  have h := router_rebind_restore connState (some 1)
    (fun st => ({ st with log_entries := st.log_entries + 1 },
      .raiseRuntime)) rfl (by decide) (by decide)
  exact ⟨rfl, h.1 1 (by decide), h.2.1⟩

theorem World.update_alive_self (w : World) (h : w.alive = false) :
    { w with alive := false } = w := by
  cases w
  simp_all

theorem stepEvent_peerDied_dead (st : LoopState)
    (h : st.world.alive = false) : stepEvent st .peerDied = st := by
  cases st with
  | mk w t s k =>
    simp only [stepEvent]
    rw [World.update_alive_self w h]

theorem waitLoop_peerDied_stuck (cid : Nat) (msg : String) :
    ∀ (n : Nat) (st : LoopState), got_reply cid st.world = false →
      st.timer_active = true →
      (waitLoop (got_reply cid) msg st (List.replicate n .peerDied)).2 =
        .stuck := by
  intro n
  induction n with
  | zero =>
    intro st h1 h2
    simp [waitLoop, loopCheck, h1, h2]
  | succ m ih =>
    intro st h1 h2
    rw [List.replicate_succ]
    simp only [waitLoop, loopCheck, h1, h2]
    simp only [Bool.false_eq_true, if_false, Bool.true_eq_false, reduceIte]
    exact ih _ h1 h2

theorem waitLoop_peerDied_then_timer (cid : Nat) (msg : String) :
    ∀ (n : Nat) (st : LoopState), got_reply cid st.world = false →
      st.timer_active = true → st.world.alive = false →
      waitLoop (got_reply cid) msg st
          (List.replicate n .peerDied ++ [.timerFired]) =
        ({ st with
            timer_active := false, sub_signal := false,
            sub_kernel_died := false }, .kernelDead) := by
  intro n
  induction n with
  | zero =>
    intro st h1 h2 h3
    simp only [List.replicate, List.nil_append]
    simp [waitLoop, loopCheck, stepEvent, h1, h2, h3]
  | succ m ih =>
    intro st h1 h2 h3
    rw [List.replicate_succ, List.cons_append]
    simp only [waitLoop, loopCheck, h1, h2]
    simp only [Bool.false_eq_true, if_false, Bool.true_eq_false, reduceIte]
    rw [stepEvent_peerDied_dead st h3]
    exact ih st h1 h2 h3

/-- C2, counterexample.  With the kernel dying before any reply and before
the timer fires, the wait does NOT end at the peer-died event: the
`kernel_died` signal merely quits the current `exec_()` iteration, after
which the loop re-enters the event loop with all subscriptions still
installed (the wait is still blocked); only once the timer fires is
`RuntimeError("Kernel is dead")` raised — refuting the claim that the
failure is raised at the peer-died event. -/
theorem wait_peer_death_keeps_looping_cex :
    wait_reply 1 ⟨[], [1], true⟩ [.peerDied] =
      (⟨⟨[], [1], false⟩, true, true, true⟩, .stuck) ∧
    wait_reply 1 ⟨[], [1], true⟩ [.peerDied, .timerFired] =
      (⟨⟨[], [1], false⟩, false, false, false⟩, .kernelDead) :=
  ⟨rfl, rfl⟩

/-- C2 (amended).  When the peer dies before the reply and before the
timer, the peer-died event only wakes the current event-loop iteration:
the loop keeps re-entering the event loop (it remains blocked however many
peer-died wakeups arrive), and the `RuntimeError("Kernel is dead")`
failure is raised only when the timer fires, at which point the reply
signal and the peer-died subscription are both removed before raising. -/
theorem wait_peer_death_resolved_at_timer (w : World) (cid : Nat) (n : Nat)
    (hin : got_reply cid w = false) (halive : w.alive = true) :
    (wait_reply cid w (List.replicate (n + 1) .peerDied)).2 = .stuck ∧
    wait_reply cid w (List.replicate (n + 1) .peerDied ++ [.timerFired]) =
      (⟨{ w with alive := false }, false, false, false⟩, .kernelDead) := by
  constructor
  · simp only [wait_reply, wait, hin, halive]
    simp only [Bool.false_eq_true, if_false, Bool.true_eq_false, reduceIte]
    exact waitLoop_peerDied_stuck cid _ (n + 1) ⟨w, true, true, true⟩ hin rfl
  · simp only [wait_reply, wait, hin, halive]
    simp only [Bool.false_eq_true, if_false, Bool.true_eq_false, reduceIte]
    rw [List.replicate_succ, List.cons_append]
    simp only [waitLoop, loopCheck, hin]
    simp only [Bool.false_eq_true, if_false, Bool.true_eq_false, reduceIte]
    exact waitLoop_peerDied_then_timer cid _ n
      ⟨{ w with alive := false }, true, true, true⟩ hin rfl rfl

/-- C2, witness for the amended theorem: one peer-died wakeup followed by
the timer resolves the wait with `KernelDead` and both subscriptions
removed. -/
theorem wait_peer_death_resolved_at_timer_witness :
    got_reply 1 ⟨[], [1, 2], true⟩ = false ∧
    wait_reply 1 ⟨[], [1, 2], true⟩
        (List.replicate 1 .peerDied ++ [.timerFired]) =
      (⟨⟨[], [1, 2], false⟩, false, false, false⟩, .kernelDead) :=
  ⟨rfl, (wait_peer_death_resolved_at_timer ⟨[], [1, 2], true⟩ 1 0 rfl
    rfl).2⟩

theorem waitLoop_replies_then_timer (cid : Nat) (msg : String) :
    ∀ (js : List Nat) (st : LoopState), (∀ j ∈ js, ¬ j = cid) →
      got_reply cid st.world = false → st.timer_active = true →
      st.world.alive = true →
      waitLoop (got_reply cid) msg st
          (js.map WaitEvent.replyArrived ++ [.timerFired]) =
        ({ st with
            world := applyReplies js st.world, timer_active := false,
            sub_signal := false, sub_kernel_died := false },
          .timedOut msg) := by
  intro js
  induction js with
  | nil =>
    intro st hjs h1 h2 h3
    simp only [List.map_nil, List.nil_append]
    simp [waitLoop, loopCheck, stepEvent, applyReplies, h1, h2, h3]
  | cons j rest ih =>
    intro st hjs h1 h2 h3
    rw [List.map_cons, List.cons_append]
    simp only [waitLoop, loopCheck, h1, h2]
    simp only [Bool.false_eq_true, if_false, Bool.true_eq_false, reduceIte]
    have hj : (j == cid) = false :=
      beq_eq_false_iff_ne.mpr (hjs j (by simp))
    have h1' : got_reply cid (stepEvent st (.replyArrived j)).world =
        false := by
      simp only [stepEvent, got_reply, List.any_append, List.any_cons,
        List.any_nil, Bool.or_false, hj] at h1 ⊢
      simp [h1]
    have := ih (stepEvent st (.replyArrived j))
      (fun k hk => hjs k (by simp [hk])) h1' h2 h3
    rw [this]
    rfl

/-- C4, counterexample.  The Timeout message is formatted from the
waitlist BEFORE the wait starts: with calls 1 and 2 outstanding and call 2
replied during the wait, the timeout for call 1 still reports the entry
snapshot `[1, 2]`, although at the moment the timer fires only call 1 is
outstanding — refuting the claim that the failure carries the identifiers
outstanding at the moment the timeout fires. -/
theorem timeout_msg_snapshot_cex :
    wait_reply 1 ⟨[], [1, 2], true⟩ [.replyArrived 2, .timerFired] =
      (⟨⟨[2], [1], true⟩, false, false, false⟩,
        .timedOut (formatWaitlist [1, 2])) ∧
    formatWaitlist [1, 2] ≠ formatWaitlist [1] :=
  ⟨rfl, by decide⟩

/-- C4 (amended).  For a blocking call to a live peer that never replies,
the wait fails with `TimeoutError` once the timer fires, and the failure
message carries the snapshot of the outstanding-call identifiers taken
when the wait started (calls replied during the wait are not removed from
the reported set); the timed-out call's id, registered in the waitlist
before the wait, is in that snapshot. -/
theorem timeout_msg_is_entry_snapshot (w : World) (cid : Nat)
    (js : List Nat) (hwl : cid ∈ w.reply_waitlist)
    (hin : got_reply cid w = false) (halive : w.alive = true)
    (hjs : ∀ j ∈ js, ¬ j = cid) :
    wait_reply cid w (js.map WaitEvent.replyArrived ++ [.timerFired]) =
      (⟨applyReplies js w, false, false, false⟩,
        .timedOut (formatWaitlist w.reply_waitlist)) ∧
    cid ∈ w.reply_waitlist := by
  refine ⟨?_, hwl⟩
  simp only [wait_reply, wait, hin, halive]
  simp only [Bool.false_eq_true, if_false, Bool.true_eq_false, reduceIte]
  exact waitLoop_replies_then_timer cid _ js ⟨w, true, true, true⟩ hjs hin
    rfl halive

/-- C4, witness for the amended theorem: waiting on call 1 with waitlist
`[1, 3]`, a reply for call 3 arriving mid-wait, then the timer — the
failure is a timeout carrying the entry snapshot `[1, 3]`, which contains
the id 1. -/
theorem timeout_msg_is_entry_snapshot_witness :
    (1 ∈ ([1, 3] : List Nat)) ∧
    wait_reply 1 ⟨[], [1, 3], true⟩
        ([3].map WaitEvent.replyArrived ++ [.timerFired]) =
      (⟨applyReplies [3] ⟨[], [1, 3], true⟩, false, false, false⟩,
        .timedOut (formatWaitlist [1, 3])) :=
  ⟨by decide, (timeout_msg_is_entry_snapshot ⟨[], [1, 3], true⟩ 1 [3]
    (by decide) rfl rfl (by decide)).1⟩

end KernelComm
